import Mathlib

/-!
# Shallow embedding of ubxlib `src/port/platform/esp-idf/src/u_port_os.c`

This file embeds the ESP-IDF port-OS layer of ubxlib: the create/destroy/use
operations for tasks, queues, mutexes, counting semaphores and timers, and the
process-wide resource-allocation counter `gResourceAllocCount`.

Modelling conventions:

* The underlying FreeRTOS kernel is an oracle: the outcome of each kernel call
  (`xTaskCreate`, `xQueueCreate`, `xQueueSend`, `xSemaphoreTake`, ...) is an
  explicit argument of the embedded function.  A create call that returns a
  kernel object is `some h`, a NULL return is `none`; a `pdTRUE`/`pdPASS`
  outcome is `true`, `pdFALSE`/`errQUEUE_FULL` is `false`.
* C pointers that the layer only tests against NULL (handles, output-handle
  pointers, event-data pointers) are modelled as `Option Nat` when the layer
  forwards them to the kernel and as `Bool` ("is non-NULL") when only the NULL
  check matters.
* The global `static volatile int32_t gResourceAllocCount` is carried as
  explicit state (`PortState`); each operation that touches it is a function
  `... → PortState → UErrorCode × PortState`.  The counter only ever moves by
  atomic `±1` steps, far from the `int32_t` range for any trace a device can
  execute, so it is modelled as a mathematical `Int`.
* Modelled from the spec: the header `u_error_common.h` is not among the
  sources; the spec (sections 6 and 7) fixes the result surface as "a success
  indicator or one of three error kinds (invalid parameter, platform/allocation
  failure, timeout) — never kernel-native status codes", so result codes are
  an inductive type with four distinct constructors, `success` standing for
  the C value `U_ERROR_COMMON_SUCCESS == 0`.
-/

namespace UPortOs

/-- Result codes of the port-OS layer.  Modelled from the spec: the concrete
enum `uErrorCode_t` lives in `u_error_common.h`, which is not among the
sources; the spec guarantees exactly these four pairwise-distinct kinds,
with `success` the C value `0`. -/
inductive UErrorCode where
  | success
  | invalidParameter
  | platform
  | timeout
  deriving DecidableEq, Repr

/-- Embeds `U_CFG_OS_PRIORITY_MIN` from `u_cfg_os_platform_specific.h`. -/
def U_CFG_OS_PRIORITY_MIN : Int := 1

/-- Embeds `U_CFG_OS_PRIORITY_MAX` from `u_cfg_os_platform_specific.h`. -/
def U_CFG_OS_PRIORITY_MAX : Int := 15

/-- The mutable state of the layer: the single global
`static volatile int32_t gResourceAllocCount = 0`. -/
structure PortState where
  gResourceAllocCount : Int
  deriving DecidableEq, Repr

/-- State at process start: `gResourceAllocCount = 0`. -/
def initState : PortState := ⟨0⟩

/-- Embeds `U_ATOMIC_INCREMENT(&gResourceAllocCount)`. -/
def atomicIncrement (s : PortState) : PortState :=
  ⟨s.gResourceAllocCount + 1⟩

/-- Embeds `U_ATOMIC_DECREMENT(&gResourceAllocCount)`. -/
def atomicDecrement (s : PortState) : PortState :=
  ⟨s.gResourceAllocCount - 1⟩

/-- Embeds `uPortOsResourceAllocCount()`: atomic read of the counter. -/
def uPortOsResourceAllocCount (s : PortState) : Int :=
  s.gResourceAllocCount

/-! ## Tasks -/

/-- Embeds `uPortTaskCreate`.  `pFunctionNonNull` and `pTaskHandleNonNull` model the
NULL tests on `pFunction` and `pTaskHandle`; `xTaskCreatePass` is the kernel
oracle (`xTaskCreate(...) == pdPASS`).  Note that the C function initialises
`errorCode` to `U_ERROR_COMMON_INVALID_PARAMETER` and, unlike the other
create functions in the file, never sets `U_ERROR_COMMON_PLATFORM`, so a
kernel-side failure also yields `invalidParameter`. -/
def uPortTaskCreate (pFunctionNonNull : Bool) (priority : Int)
    (pTaskHandleNonNull : Bool) (xTaskCreatePass : Bool) (s : PortState) :
    UErrorCode × PortState :=
  if pFunctionNonNull ∧ pTaskHandleNonNull ∧
      U_CFG_OS_PRIORITY_MIN ≤ priority ∧ priority ≤ U_CFG_OS_PRIORITY_MAX then
    if xTaskCreatePass then
      (.success, atomicIncrement s)
    else
      (.invalidParameter, s)
  else
    (.invalidParameter, s)

/-- Embeds `uPortTaskDelete`: FreeRTOS only permits self-deletion, so only a NULL
handle is accepted; the counter is decremented on that path (before
`vTaskDelete`, which does not return a status). -/
def uPortTaskDelete (taskHandle : Option Nat) (s : PortState) :
    UErrorCode × PortState :=
  if taskHandle = none then (.success, atomicDecrement s)
  else (.invalidParameter, s)

/-! ## Queues -/

/-- Embeds `uPortQueueCreate`: `xQueueCreateResult` is the handle returned by
`xQueueCreate` (`none` = NULL). -/
def uPortQueueCreate (pQueueHandleNonNull : Bool)
    (xQueueCreateResult : Option Nat) (s : PortState) :
    UErrorCode × PortState :=
  if pQueueHandleNonNull then
    if xQueueCreateResult.isSome then (.success, atomicIncrement s)
    else (.platform, s)
  else
    (.invalidParameter, s)

/-- Embeds `uPortQueueDelete`: only a NULL check on the handle; `vQueueDelete`
returns no status. -/
def uPortQueueDelete (queueHandle : Option Nat) (s : PortState) :
    UErrorCode × PortState :=
  if queueHandle.isSome then (.success, atomicDecrement s)
  else (.invalidParameter, s)

/-- Embeds `uPortQueueSend`, the plain (non-`U_CFG_QUEUE_DEBUG`) path: blocking send
with `portMAX_DELAY`; `xQueueSendPass` is `xQueueSend(...) == pdTRUE`. -/
def uPortQueueSend (queueHandle : Option Nat) (pEventDataNonNull : Bool)
    (xQueueSendPass : Bool) : UErrorCode :=
  if queueHandle.isSome ∧ pEventDataNonNull then
    if xQueueSendPass then .success else .platform
  else
    .invalidParameter

/-- Embeds `uPortQueueSendIrq`: `xQueueSendFromISR` never blocks; the `yield`
out-parameter only triggers `taskYIELD()` and does not affect the result. -/
def uPortQueueSendIrq (queueHandle : Option Nat) (pEventDataNonNull : Bool)
    (xQueueSendFromISRPass : Bool) : UErrorCode :=
  if queueHandle.isSome ∧ pEventDataNonNull then
    if xQueueSendFromISRPass then .success else .platform
  else
    .invalidParameter

/-- Embeds `uPortQueueReceive`: blocking receive with `portMAX_DELAY`. -/
def uPortQueueReceive (queueHandle : Option Nat) (pEventDataNonNull : Bool)
    (xQueueReceivePass : Bool) : UErrorCode :=
  if queueHandle.isSome ∧ pEventDataNonNull then
    if xQueueReceivePass then .success else .platform
  else
    .invalidParameter

/-- Embeds `uPortQueueReceiveIrq`: non-blocking receive via `xQueueReceiveFromISR`. -/
def uPortQueueReceiveIrq (queueHandle : Option Nat) (pEventDataNonNull : Bool)
    (xQueueReceiveFromISRPass : Bool) : UErrorCode :=
  if queueHandle.isSome ∧ pEventDataNonNull then
    if xQueueReceiveFromISRPass then .success else .platform
  else
    .invalidParameter

/-- Embeds `uPortQueueTryReceive`: receive with a caller-supplied wait; the default
code on the valid-parameter path is `U_ERROR_COMMON_TIMEOUT`. -/
def uPortQueueTryReceive (queueHandle : Option Nat) (waitMs : Int)
    (pEventDataNonNull : Bool) (xQueueReceivePass : Bool) : UErrorCode :=
  if queueHandle.isSome ∧ pEventDataNonNull then
    if xQueueReceivePass then .success else .timeout
  else
    .invalidParameter

/-- Embeds `uPortQueuePeek`: blocking peek with `portMAX_DELAY`; the default code on
the valid-parameter path is `U_ERROR_COMMON_TIMEOUT` (not `PLATFORM`). -/
def uPortQueuePeek (queueHandle : Option Nat) (pEventDataNonNull : Bool)
    (xQueuePeekPass : Bool) : UErrorCode :=
  if queueHandle.isSome ∧ pEventDataNonNull then
    if xQueuePeekPass then .success else .timeout
  else
    .invalidParameter

/-! ## Mutexes (the `MTX_FN(...)` wrappers only rename the symbols when
`U_CFG_MUTEX_DEBUG` is set; the bodies below are the same either way). -/

/-- Embeds `uPortMutexCreate`: `xSemaphoreCreateMutexResult` is the handle returned
by `xSemaphoreCreateMutex` (`none` = NULL). -/
def uPortMutexCreate (pMutexHandleNonNull : Bool)
    (xSemaphoreCreateMutexResult : Option Nat) (s : PortState) :
    UErrorCode × PortState :=
  if pMutexHandleNonNull then
    if xSemaphoreCreateMutexResult.isSome then (.success, atomicIncrement s)
    else (.platform, s)
  else
    (.invalidParameter, s)

/-- Embeds `uPortMutexDelete`: only a NULL check on the handle. -/
def uPortMutexDelete (mutexHandle : Option Nat) (s : PortState) :
    UErrorCode × PortState :=
  if mutexHandle.isSome then (.success, atomicDecrement s)
  else (.invalidParameter, s)

/-- Embeds `uPortMutexLock`: blocking `xSemaphoreTake` with `portMAX_DELAY`. -/
def uPortMutexLock (mutexHandle : Option Nat)
    (xSemaphoreTakePass : Bool) : UErrorCode :=
  if mutexHandle.isSome then
    if xSemaphoreTakePass then .success else .platform
  else
    .invalidParameter

/-- Embeds `uPortMutexTryLock`: `xSemaphoreTake` with a caller-supplied wait; the
default code on the valid-parameter path is `U_ERROR_COMMON_TIMEOUT`. -/
def uPortMutexTryLock (mutexHandle : Option Nat) (delayMs : Int)
    (xSemaphoreTakePass : Bool) : UErrorCode :=
  if mutexHandle.isSome then
    if xSemaphoreTakePass then .success else .timeout
  else
    .invalidParameter

/-- Embeds `uPortMutexUnlock`: calls `xSemaphoreGive` and discards its result —
the kernel outcome is an argument here only to show it is ignored. -/
def uPortMutexUnlock (mutexHandle : Option Nat)
    (xSemaphoreGivePass : Bool) : UErrorCode :=
  if mutexHandle.isSome then .success else .invalidParameter

/-! ## Semaphores -/

/-- Outcome of `uPortSemaphoreCreate`, recording whether and with which
arguments the kernel allocation `xSemaphoreCreateCounting(limit, initialCount)`
was invoked, so that "parameters are forwarded to the kernel" and "the kernel
is not invoked" are statable. -/
structure SemaphoreCreateResult where
  code : UErrorCode
  kernelCall : Option (Nat × Nat)
  state : PortState
  deriving DecidableEq, Repr

/-- Embeds `uPortSemaphoreCreate`: validates `pSemaphoreHandle != NULL`,
`limit != 0` and `initialCount <= limit`, then calls
`xSemaphoreCreateCounting(limit, initialCount)`; `initialCount` and `limit`
are `uint32_t`, whose comparisons agree with those on `Nat`. -/
def uPortSemaphoreCreate (pSemaphoreHandleNonNull : Bool)
    (initialCount limit : Nat) (xSemaphoreCreateCountingResult : Option Nat)
    (s : PortState) : SemaphoreCreateResult :=
  if pSemaphoreHandleNonNull ∧ limit ≠ 0 ∧ initialCount ≤ limit then
    if xSemaphoreCreateCountingResult.isSome then
      ⟨.success, some (limit, initialCount), atomicIncrement s⟩
    else
      ⟨.platform, some (limit, initialCount), s⟩
  else
    ⟨.invalidParameter, none, s⟩

/-- Embeds `uPortSemaphoreDelete`: only a NULL check on the handle. -/
def uPortSemaphoreDelete (semaphoreHandle : Option Nat) (s : PortState) :
    UErrorCode × PortState :=
  if semaphoreHandle.isSome then (.success, atomicDecrement s)
  else (.invalidParameter, s)

/-- Embeds `uPortSemaphoreTake`: blocking `xSemaphoreTake` with `portMAX_DELAY`. -/
def uPortSemaphoreTake (semaphoreHandle : Option Nat)
    (xSemaphoreTakePass : Bool) : UErrorCode :=
  if semaphoreHandle.isSome then
    if xSemaphoreTakePass then .success else .platform
  else
    .invalidParameter

/-- Embeds `uPortSemaphoreTryTake`: `xSemaphoreTake` with a caller-supplied wait;
the default code on the valid-parameter path is `U_ERROR_COMMON_TIMEOUT`. -/
def uPortSemaphoreTryTake (semaphoreHandle : Option Nat) (delayMs : Int)
    (xSemaphoreTakePass : Bool) : UErrorCode :=
  if semaphoreHandle.isSome then
    if xSemaphoreTakePass then .success else .timeout
  else
    .invalidParameter

/-- Embeds `uPortSemaphoreGive`: calls `xSemaphoreGive` and discards its result —
the kernel outcome is an argument here only to show it is ignored. -/
def uPortSemaphoreGive (semaphoreHandle : Option Nat)
    (xSemaphoreGivePass : Bool) : UErrorCode :=
  if semaphoreHandle.isSome then .success else .invalidParameter

/-- Embeds `uPortSemaphoreGiveIrq`: `xSemaphoreGiveFromISR` never blocks; the
`yield` out-parameter only triggers `taskYIELD()` and does not affect the
result. -/
def uPortSemaphoreGiveIrq (semaphoreHandle : Option Nat)
    (xSemaphoreGiveFromISRPass : Bool) : UErrorCode :=
  if semaphoreHandle.isSome then
    if xSemaphoreGiveFromISRPass then .success else .platform
  else
    .invalidParameter

/-! ## Timers -/

/-- Embeds `uPortTimerCreate`.  Modelled from the spec: `uPortPrivateTimerCreate`
(in `u_port_private.c`, not among the sources) validates parameters and
allocates the kernel timer, returning "zero on success else negative error
code"; its result is the oracle argument here, with `success` standing for
the C value `0`.  The wrapper passes the private code through and increments
the counter exactly when that code is `0`. -/
def uPortTimerCreate (uPortPrivateTimerCreateResult : UErrorCode)
    (s : PortState) : UErrorCode × PortState :=
  (uPortPrivateTimerCreateResult,
    if uPortPrivateTimerCreateResult = .success then atomicIncrement s else s)

/-- Embeds `uPortTimerDelete`.  Modelled from the spec: `uPortPrivateTimerDelete`
(not among the sources) is the oracle argument, as for `uPortTimerCreate`;
the wrapper decrements the counter exactly when it returns `0`. -/
def uPortTimerDelete (uPortPrivateTimerDeleteResult : UErrorCode)
    (s : PortState) : UErrorCode × PortState :=
  (uPortPrivateTimerDeleteResult,
    if uPortPrivateTimerDeleteResult = .success then atomicDecrement s else s)

/-- Embeds `uPortTimerStart`: no NULL check at all — the handle goes straight to
`xTimerStart`; the result is `platform` unless the kernel reports `pdPASS`. -/
def uPortTimerStart (timerHandle : Option Nat)
    (xTimerStartPass : Bool) : UErrorCode :=
  if xTimerStartPass then .success else .platform

/-- Embeds `uPortTimerStop`: no NULL check — the handle goes straight to
`xTimerStop`. -/
def uPortTimerStop (timerHandle : Option Nat)
    (xTimerStopPass : Bool) : UErrorCode :=
  if xTimerStopPass then .success else .platform

/-- Embeds `uPortTimerChange`: no NULL check — the handle goes straight to
`xTimerChangePeriod`. -/
def uPortTimerChange (timerHandle : Option Nat) (intervalMs : Int)
    (xTimerChangePeriodPass : Bool) : UErrorCode :=
  if xTimerChangePeriodPass then .success else .platform

/-! ## Traces of create/destroy calls

One constructor per create/destroy operation of the layer, carrying the call
arguments and the kernel-oracle outcome for that invocation. -/

/-- A single create or destroy invocation, with its arguments and the
outcome of the kernel call made (if any) during it. -/
inductive Call where
  | taskCreate (pFunctionNonNull : Bool) (priority : Int)
      (pTaskHandleNonNull : Bool) (xTaskCreatePass : Bool)
  | taskDelete (taskHandle : Option Nat)
  | queueCreate (pQueueHandleNonNull : Bool) (xQueueCreateResult : Option Nat)
  | queueDelete (queueHandle : Option Nat)
  | mutexCreate (pMutexHandleNonNull : Bool)
      (xSemaphoreCreateMutexResult : Option Nat)
  | mutexDelete (mutexHandle : Option Nat)
  | semaphoreCreate (pSemaphoreHandleNonNull : Bool)
      (initialCount limit : Nat) (xSemaphoreCreateCountingResult : Option Nat)
  | semaphoreDelete (semaphoreHandle : Option Nat)
  | timerCreate (uPortPrivateTimerCreateResult : UErrorCode)
  | timerDelete (uPortPrivateTimerDeleteResult : UErrorCode)
  deriving DecidableEq, Repr

/-- Dispatch a call to the embedded operation it names. -/
def step (s : PortState) : Call → UErrorCode × PortState
  | .taskCreate f p h k => uPortTaskCreate f p h k s
  | .taskDelete h => uPortTaskDelete h s
  | .queueCreate h r => uPortQueueCreate h r s
  | .queueDelete h => uPortQueueDelete h s
  | .mutexCreate h r => uPortMutexCreate h r s
  | .mutexDelete h => uPortMutexDelete h s
  | .semaphoreCreate h i l r =>
      ((uPortSemaphoreCreate h i l r s).code, (uPortSemaphoreCreate h i l r s).state)
  | .semaphoreDelete h => uPortSemaphoreDelete h s
  | .timerCreate r => uPortTimerCreate r s
  | .timerDelete r => uPortTimerDelete r s

/-- Whether a call is one of the five create operations. -/
def Call.isCreate : Call → Bool
  | .taskCreate .. | .queueCreate .. | .mutexCreate ..
  | .semaphoreCreate .. | .timerCreate .. => true
  | _ => false

/-- Whether a call is one of the five destroy operations. -/
def Call.isDestroy : Call → Bool
  | .taskDelete .. | .queueDelete .. | .mutexDelete ..
  | .semaphoreDelete .. | .timerDelete .. => true
  | _ => false

/-- The result code of a call; the code returned by an operation never
depends on the counter, so it is well defined from the call alone. -/
def Call.code (c : Call) : UErrorCode := (step initState c).1

/-- Run a sequence of create/destroy calls from a given state. -/
def run (s : PortState) : List Call → PortState
  | [] => s
  | c :: cs => run (step s c).2 cs

/-- Number of calls in the trace that are creates returning success. -/
def successfulCreates (cs : List Call) : Nat :=
  (cs.filter (fun c => c.isCreate && c.code == .success)).length

/-- Number of calls in the trace that are destroys returning success. -/
def successfulDestroys (cs : List Call) : Nat :=
  (cs.filter (fun c => c.isDestroy && c.code == .success)).length

/-! ## Support lemmas -/

lemma step_fst_eq_code (s : PortState) (c : Call) : (step s c).1 = c.code := by
  cases c <;>
    simp only [step, Call.code, initState, uPortTaskCreate, uPortTaskDelete,
      uPortQueueCreate, uPortQueueDelete, uPortMutexCreate, uPortMutexDelete,
      uPortSemaphoreCreate, uPortSemaphoreDelete, uPortTimerCreate,
      uPortTimerDelete] <;>
    split_ifs <;> rfl

lemma step_count (s : PortState) (c : Call) :
    (step s c).2.gResourceAllocCount =
      s.gResourceAllocCount
        + (if c.isCreate && c.code == .success then 1 else 0)
        - (if c.isDestroy && c.code == .success then 1 else 0) := by
  cases c <;>
    simp only [step, Call.code, Call.isCreate, Call.isDestroy, initState,
      uPortTaskCreate, uPortTaskDelete, uPortQueueCreate, uPortQueueDelete,
      uPortMutexCreate, uPortMutexDelete, uPortSemaphoreCreate,
      uPortSemaphoreDelete, uPortTimerCreate, uPortTimerDelete,
      atomicIncrement, atomicDecrement] <;>
    split_ifs <;> simp_all

lemma run_count (cs : List Call) : ∀ s : PortState,
    (run s cs).gResourceAllocCount =
      s.gResourceAllocCount + successfulCreates cs - successfulDestroys cs := by
  induction cs with
  | nil => intro s; simp [run, successfulCreates, successfulDestroys]
  | cons c cs ih =>
      intro s
      have hcount := step_count s c
      simp only [run, successfulCreates, successfulDestroys,
        List.filter_cons] at *
      rw [ih]
      cases hC : (c.isCreate && c.code == UErrorCode.success) <;>
        cases hD : (c.isDestroy && c.code == UErrorCode.success) <;>
          simp [hC, hD] at hcount ⊢ <;> omega

/-! ## Claim theorems -/

/-- Claim C1: for every sequence of create and destroy calls, of any mix of
primitive kinds, the resource counter as read by `uPortOsResourceAllocCount`
equals the number of create calls that returned success minus the number of
destroy calls that returned success; moreover, per call, the counter is
incremented exactly when a create returns success, decremented exactly when a
destroy returns success, and unchanged by any call that returns an error. -/
theorem resource_counter_eq_successful_creates_sub_destroys :
    (∀ cs : List Call,
      uPortOsResourceAllocCount (run initState cs) =
        (successfulCreates cs : Int) - (successfulDestroys cs : Int)) ∧
    (∀ (s : PortState) (c : Call),
      (step s c).2.gResourceAllocCount =
        s.gResourceAllocCount
          + (if c.isCreate ∧ (step s c).1 = .success then 1 else 0)
          - (if c.isDestroy ∧ (step s c).1 = .success then 1 else 0)) := by
  constructor
  · intro cs
    have h := run_count cs initState
    simpa [uPortOsResourceAllocCount, initState] using h
  · intro s c
    have h := step_count s c
    rw [step_fst_eq_code]
    simpa [Bool.and_eq_true, beq_iff_eq] using h

/-- Claim C2 (evidence of the code bug): with all parameters valid — non-NULL
entry function, non-NULL output-handle pointer, priority 5 inside
`[U_CFG_OS_PRIORITY_MIN, U_CFG_OS_PRIORITY_MAX]` — and `xTaskCreate`
failing, `uPortTaskCreate` returns `invalidParameter`, not the distinct
`platform` kind: the body initialises `errorCode` to
`U_ERROR_COMMON_INVALID_PARAMETER` and, unlike every other create function
in the file, never assigns `U_ERROR_COMMON_PLATFORM` before the kernel
call, so the kernel-allocation-failure path falls through to the
invalid-parameter code. -/
theorem uPortTaskCreate_kernel_failure_reported_as_invalidParameter :
    (uPortTaskCreate true 5 true false initState).1 = .invalidParameter ∧
    (uPortTaskCreate true 5 true false initState).1 ≠ .platform := by
  decide

/-- Claim C3 fails as stated: from the initial state, in which no create has
ever returned any handle, deleting the never-created non-NULL queue handle 7
returns success (the claim says Invalid Parameter) and decrements the
resource counter to -1 (the claim says the counter is unchanged) — the
layer validates handles only against NULL. -/
theorem uPortQueueDelete_stale_handle_counterexample :
    (uPortQueueDelete (some 7) initState).1 = .success ∧
    uPortOsResourceAllocCount (uPortQueueDelete (some 7) initState).2 = -1 := by
  decide

/-- Claim C3 (amended): the destroy operations validate only against NULL.
Deleting a NULL queue/mutex/semaphore handle reports `invalidParameter` and
leaves the whole state — in particular the resource counter — unchanged;
any non-NULL handle, live or not, is forwarded to the kernel, reported as
success, and decrements the counter. -/
theorem delete_validates_only_null :
    ∀ s : PortState,
      uPortQueueDelete none s = (.invalidParameter, s) ∧
      uPortMutexDelete none s = (.invalidParameter, s) ∧
      uPortSemaphoreDelete none s = (.invalidParameter, s) ∧
      (∀ n : Nat,
        uPortQueueDelete (some n) s = (.success, atomicDecrement s) ∧
        uPortMutexDelete (some n) s = (.success, atomicDecrement s) ∧
        uPortSemaphoreDelete (some n) s = (.success, atomicDecrement s)) := by
  intro s
  exact ⟨rfl, rfl, rfl, fun n => ⟨rfl, rfl, rfl⟩⟩

/-- Claim C4 fails as stated: `uPortQueuePeek` is an indefinite-wait
operation, yet when the kernel peek reports failure on valid parameters the
returned value is the Timeout kind, because the valid-parameter default in
its body is `U_ERROR_COMMON_TIMEOUT` rather than `U_ERROR_COMMON_PLATFORM`. -/
theorem uPortQueuePeek_timeout_counterexample :
    uPortQueuePeek (some 1) true false = .timeout := by
  decide

/-- Claim C4 (amended): of the indefinite-wait operations, `uPortQueueSend`,
`uPortQueueReceive`, `uPortMutexLock` and `uPortSemaphoreTake` never return
the Timeout kind — failure after valid parameters is the Platform kind —
while `uPortQueuePeek` reports failure after its implicit indefinite wait as
the Timeout kind (by design, so that a peek can be retried identically to a
receive). -/
theorem indefinite_wait_never_timeout_except_peek :
    (∀ (q : Option Nat) (e k : Bool), uPortQueueSend q e k ≠ .timeout) ∧
    (∀ (q : Option Nat) (e k : Bool), uPortQueueReceive q e k ≠ .timeout) ∧
    (∀ (m : Option Nat) (k : Bool), uPortMutexLock m k ≠ .timeout) ∧
    (∀ (h : Option Nat) (k : Bool), uPortSemaphoreTake h k ≠ .timeout) ∧
    (∀ (q : Option Nat) (e : Bool),
      uPortQueuePeek q e false =
        if q.isSome ∧ e then .timeout else .invalidParameter) := by
  refine ⟨?_, ?_, ?_, ?_, ?_⟩ <;> intros <;>
    first
      | (simp only [uPortQueueSend, uPortQueueReceive, uPortMutexLock,
          uPortSemaphoreTake]; split_ifs <;> simp)
      | (simp only [uPortQueuePeek]; split_ifs <;> simp_all)

/-- Witness for the amended Claim C4 at a concrete input. -/
theorem indefinite_wait_never_timeout_except_peek_witness :
    uPortQueueSend (some 1) true false ≠ .timeout :=
  indefinite_wait_never_timeout_except_peek.1 (some 1) true false

/-- Claim C5 fails as stated: `uPortSemaphoreGive` discards the result of
`xSemaphoreGive` exactly as `uPortMutexUnlock` discards that of the
underlying give, so a kernel-reported give failure is mapped to a success
return — the claim names mutex unlock as the single exception and asserts
the property "in particular" for `uPortSemaphoreGive`. -/
theorem uPortSemaphoreGive_maps_kernel_failure_to_success :
    uPortSemaphoreGive (some 1) false = .success := by
  decide

/-- Claim C5 (amended): every operation that consults the result of its
kernel call never maps a kernel-reported failure to a success return; the
exceptions are two, not one: both `uPortMutexUnlock` and
`uPortSemaphoreGive` ignore the kernel result entirely and return success
for any non-NULL handle. -/
theorem kernel_failure_never_success_except_unlock_and_give :
    (∀ (f : Bool) (p : Int) (h : Bool) (s : PortState),
      (uPortTaskCreate f p h false s).1 ≠ .success) ∧
    (∀ (h : Bool) (s : PortState), (uPortQueueCreate h none s).1 ≠ .success) ∧
    (∀ (q : Option Nat) (e : Bool), uPortQueueSend q e false ≠ .success) ∧
    (∀ (q : Option Nat) (e : Bool), uPortQueueSendIrq q e false ≠ .success) ∧
    (∀ (q : Option Nat) (e : Bool), uPortQueueReceive q e false ≠ .success) ∧
    (∀ (q : Option Nat) (e : Bool), uPortQueueReceiveIrq q e false ≠ .success) ∧
    (∀ (q : Option Nat) (w : Int) (e : Bool),
      uPortQueueTryReceive q w e false ≠ .success) ∧
    (∀ (q : Option Nat) (e : Bool), uPortQueuePeek q e false ≠ .success) ∧
    (∀ (h : Bool) (s : PortState), (uPortMutexCreate h none s).1 ≠ .success) ∧
    (∀ m : Option Nat, uPortMutexLock m false ≠ .success) ∧
    (∀ (m : Option Nat) (d : Int), uPortMutexTryLock m d false ≠ .success) ∧
    (∀ (h : Bool) (i l : Nat) (s : PortState),
      (uPortSemaphoreCreate h i l none s).code ≠ .success) ∧
    (∀ m : Option Nat, uPortSemaphoreTake m false ≠ .success) ∧
    (∀ (m : Option Nat) (d : Int), uPortSemaphoreTryTake m d false ≠ .success) ∧
    (∀ m : Option Nat, uPortSemaphoreGiveIrq m false ≠ .success) ∧
    (∀ (r : UErrorCode) (s : PortState),
      r ≠ .success → (uPortTimerCreate r s).1 ≠ .success) ∧
    (∀ t : Option Nat, uPortTimerStart t false ≠ .success) ∧
    (∀ t : Option Nat, uPortTimerStop t false ≠ .success) ∧
    (∀ (t : Option Nat) (i : Int), uPortTimerChange t i false ≠ .success) ∧
    (∀ (m : Option Nat) (k₁ k₂ : Bool),
      uPortMutexUnlock m k₁ = uPortMutexUnlock m k₂) ∧
    (∀ (m : Option Nat) (k : Bool),
      m.isSome → uPortMutexUnlock m k = .success) ∧
    (∀ (m : Option Nat) (k₁ k₂ : Bool),
      uPortSemaphoreGive m k₁ = uPortSemaphoreGive m k₂) ∧
    (∀ (m : Option Nat) (k : Bool),
      m.isSome → uPortSemaphoreGive m k = .success) := by
  refine ⟨?_, ?_, ?_, ?_, ?_, ?_, ?_, ?_, ?_, ?_, ?_, ?_, ?_, ?_, ?_, ?_,
    ?_, ?_, ?_, ?_, ?_, ?_, ?_⟩ <;> intros <;>
    simp_all only [uPortTaskCreate, uPortQueueCreate, uPortQueueSend,
      uPortQueueSendIrq, uPortQueueReceive, uPortQueueReceiveIrq,
      uPortQueueTryReceive, uPortQueuePeek, uPortMutexCreate, uPortMutexLock,
      uPortMutexTryLock, uPortSemaphoreCreate, uPortSemaphoreTake,
      uPortSemaphoreTryTake, uPortSemaphoreGiveIrq, uPortTimerCreate,
      uPortTimerStart, uPortTimerStop, uPortTimerChange, uPortMutexUnlock,
      uPortSemaphoreGive, Option.isSome_none] <;>
    first
      | assumption
      | (split_ifs <;> simp_all)

/-- Witness for the amended Claim C5 at a concrete input. -/
theorem kernel_failure_never_success_except_unlock_and_give_witness :
    (uPortTaskCreate true 5 true false initState).1 ≠ .success :=
  kernel_failure_never_success_except_unlock_and_give.1 true 5 true initState

/-- Claim C6: `uPortSemaphoreCreate` forwards `(limit, initialCount)` to
`xSemaphoreCreateCounting` exactly when the output-handle pointer is
non-NULL, `limit ≥ 1` and `initialCount ≤ limit`; otherwise it returns the
Invalid Parameter kind without invoking the kernel and with the state — in
particular the resource counter — untouched. -/
theorem uPortSemaphoreCreate_validates_then_forwards (pOk : Bool)
    (i l : Nat) (r : Option Nat) (s : PortState) :
    (pOk = true → 1 ≤ l → i ≤ l →
      (uPortSemaphoreCreate pOk i l r s).kernelCall = some (l, i)) ∧
    (¬(pOk = true ∧ 1 ≤ l ∧ i ≤ l) →
      uPortSemaphoreCreate pOk i l r s =
        ⟨.invalidParameter, none, s⟩) := by
  constructor
  · intro hp hl hi
    simp only [uPortSemaphoreCreate]
    rw [if_pos ⟨hp, by omega, hi⟩]
    split_ifs <;> rfl
  · intro hinv
    simp only [uPortSemaphoreCreate]
    rw [if_neg (fun h => hinv ⟨h.1, by omega, h.2.2⟩)]

/-- Witness for Claim C6 at a concrete input: a valid triple is forwarded,
and `initialCount > limit` is rejected with no kernel call and no state
change. -/
theorem uPortSemaphoreCreate_validates_then_forwards_witness :
    (uPortSemaphoreCreate true 2 3 (some 11) initState).kernelCall =
      some (3, 2) ∧
    uPortSemaphoreCreate true 4 3 (some 11) initState =
      ⟨.invalidParameter, none, initState⟩ :=
  ⟨(uPortSemaphoreCreate_validates_then_forwards true 2 3 (some 11)
      initState).1 rfl (by decide) (by decide),
   (uPortSemaphoreCreate_validates_then_forwards true 4 3 (some 11)
      initState).2 (by decide)⟩

/-- Claim C7: with valid (non-NULL) arguments, the interrupt-context
variants `uPortQueueSendIrq` and `uPortSemaphoreGiveIrq` return the
Platform failure kind when the kernel refuses (queue full / semaphore at
its limit) and success when the kernel accepts; the underlying
`...FromISR` calls take no timeout and cannot wait. -/
theorem irq_send_give_platform_on_refusal (q h : Option Nat) (e : Bool)
    (hq : q.isSome = true) (he : e = true) (hh : h.isSome = true) :
    uPortQueueSendIrq q e false = .platform ∧
    uPortQueueSendIrq q e true = .success ∧
    uPortSemaphoreGiveIrq h false = .platform ∧
    uPortSemaphoreGiveIrq h true = .success := by
  simp [uPortQueueSendIrq, uPortSemaphoreGiveIrq, hq, he, hh]

/-- Witness for Claim C7 at a concrete input. -/
theorem irq_send_give_platform_on_refusal_witness :
    uPortQueueSendIrq (some 1) true false = .platform ∧
    uPortQueueSendIrq (some 1) true true = .success ∧
    uPortSemaphoreGiveIrq (some 2) false = .platform ∧
    uPortSemaphoreGiveIrq (some 2) true = .success :=
  irq_send_give_platform_on_refusal (some 1) (some 2) true rfl rfl rfl

/-- Claim C8: with a non-NULL queue handle and non-NULL output pointer,
`uPortQueueTryReceive` returns success when an item arrives within the wait
and the Timeout kind when none does, and the Timeout kind is distinct from
both the Invalid Parameter kind and the Platform kind. -/
theorem uPortQueueTryReceive_success_or_timeout (q : Option Nat) (w : Int)
    (e : Bool) (hq : q.isSome = true) (he : e = true) :
    uPortQueueTryReceive q w e true = .success ∧
    uPortQueueTryReceive q w e false = .timeout ∧
    UErrorCode.timeout ≠ UErrorCode.invalidParameter ∧
    UErrorCode.timeout ≠ UErrorCode.platform := by
  simp [uPortQueueTryReceive, hq, he]

/-- Witness for Claim C8 at a concrete input. -/
theorem uPortQueueTryReceive_success_or_timeout_witness :
    uPortQueueTryReceive (some 1) 100 true true = .success ∧
    uPortQueueTryReceive (some 1) 100 true false = .timeout ∧
    UErrorCode.timeout ≠ UErrorCode.invalidParameter ∧
    UErrorCode.timeout ≠ UErrorCode.platform :=
  uPortQueueTryReceive_success_or_timeout (some 1) 100 true rfl rfl

/-- Claim C9: `uPortTaskDelete` accepts a NULL handle — meaning "delete the
calling task" — returning success, and rejects every non-NULL handle with
the Invalid Parameter kind, deleting nothing and leaving the state
unchanged. -/
theorem uPortTaskDelete_null_accepted_nonnull_rejected (s : PortState) :
    (uPortTaskDelete none s).1 = .success ∧
    (∀ n : Nat, uPortTaskDelete (some n) s = (.invalidParameter, s)) :=
  ⟨rfl, fun _ => rfl⟩

/-- Claim C10: the timer control operations perform no handle validation at
this layer: for every handle value, including NULL, `uPortTimerStart`,
`uPortTimerStop` and `uPortTimerChange` never return the Invalid Parameter
kind, the only possible results are success and the Platform kind, and the
result is independent of the handle, which is passed to the kernel
unchecked. -/
theorem timer_control_no_handle_validation :
    ∀ (t t' : Option Nat) (k : Bool) (i : Int),
      uPortTimerStart t k ≠ .invalidParameter ∧
      uPortTimerStop t k ≠ .invalidParameter ∧
      uPortTimerChange t i k ≠ .invalidParameter ∧
      (uPortTimerStart t k = .success ∨ uPortTimerStart t k = .platform) ∧
      (uPortTimerStop t k = .success ∨ uPortTimerStop t k = .platform) ∧
      (uPortTimerChange t i k = .success ∨
        uPortTimerChange t i k = .platform) ∧
      uPortTimerStart t k = uPortTimerStart t' k ∧
      uPortTimerStop t k = uPortTimerStop t' k ∧
      uPortTimerChange t i k = uPortTimerChange t' i k := by
  intro t t' k i
  unfold uPortTimerStart uPortTimerStop uPortTimerChange
  cases k <;> simp

/-- Witness for Claim C10 at a concrete input: a NULL timer handle is not
rejected as an invalid parameter. -/
theorem timer_control_no_handle_validation_witness :
    uPortTimerStart none true ≠ .invalidParameter :=
  (timer_control_no_handle_validation none (some 0) true 0).1

end UPortOs
